import Mathlib

/-
Verification of the bucket-policy custom resource (policy_maker/app.py).

The Python source is shallowly embedded below: dictionaries become
structures, exceptions become an explicit error type threaded through
Except, and the boto3 S3 client becomes an abstract BucketStore record of
functions (the store is an external collaborator; its behaviour is
universally quantified in the theorems).  The policy document is modelled
as the dictionary the source builds; the source serializes it with
json.dumps before returning, which we leave at the structural level since
all properties of interest are structural.
-/

namespace PolicyMaker

/-- A bucket tag, one element of the TagSet returned by get_bucket_tagging. -/
structure Tag where
  key : String
  value : String
deriving DecidableEq, Repr

/-- A raw JSON-ish value appearing in ResourceProperties: either a single
string scalar or a list of strings (the two shapes the template may pass
for ExtraPrincipalArns). -/
inductive PValue where
  | str (s : String)
  | list (l : List String)
deriving DecidableEq, Repr

/-- Python truthiness test on a PValue: empty string and empty list are
falsy, everything else truthy.  Mirrors the `if not extra_principals`
test in get_params. -/
def PValue.isFalsy : PValue → Bool
  | .str s => s = ""
  | .list l => l.isEmpty

/-- The `isinstance(extra_principals, list)` normalization: a scalar is
wrapped into a one-element list, a list is kept as is. -/
def PValue.asList : PValue → List String
  | .str s => [s]
  | .list l => l

/-- The ResourceProperties map of the inbound event.  Absent keys are
modelled by none (dict.get returning None). -/
structure ResourceProperties where
  bucketName : Option String
  extraPrincipalArns : Option PValue
  requireEncryption : Option String
deriving DecidableEq, Repr

/-- The inbound CloudFormation custom-resource event. -/
structure Event where
  requestType : String
  physicalResourceId : Option String
  resourceProperties : ResourceProperties
deriving DecidableEq, Repr

/-- The Lambda invocation context; only aws_request_id is read by the
source. -/
structure Context where
  awsRequestId : String
deriving DecidableEq, Repr

/-- Errors raised by the embedded code.  missingParameter is the
Exception raised by get_params, clientError re-raises a botocore
ClientError message, noTagsFound is the Exception raised by
get_bucket_tags on an empty or absent TagSet, principalTagMissing is the
ValueError raised by get_principal_tag, and keyError models a Python
KeyError on a missing event key. -/
inductive Err where
  | missingParameter
  | clientError (msg : String)
  | noTagsFound
  | principalTagMissing
  | keyError (k : String)
deriving DecidableEq, Repr

/-- The Action field of a statement: the source emits either a single
string or a list of strings, and the two shapes are distinct JSON
values. -/
inductive ActionField where
  | single (a : String)
  | list (actions : List String)
deriving DecidableEq, Repr

/-- A condition block: operator name, condition key and expected value,
e.g. StringNotEquals on s3:x-amz-server-side-encryption with value
AES256.  The Null operator with value "true" denies when the key is
absent from the request. -/
structure Condition where
  op : String
  key : String
  value : String
deriving DecidableEq, Repr

/-- One policy statement as built by create_policy_document.  The
Principal field of the source is the dictionary with single key AWS
mapped to the principal list, so it is modelled by that list. -/
structure Statement where
  sid : String
  effect : String
  principal : List String
  action : ActionField
  resource : String
  condition : Option Condition
deriving DecidableEq, Repr

/-- The policy document dictionary. -/
structure Policy where
  version : String
  statement : List Statement
deriving DecidableEq, Repr

/-- The external Bucket Store (the boto3 S3 client).  getTagging returns
the TagSet field of the get_bucket_tagging response (none when absent)
or a ClientError message; putPolicy and deletePolicy may fail with a
ClientError message. -/
structure BucketStore where
  getTagging : String → Except String (Option (List Tag))
  putPolicy : String → Policy → Except String Unit
  deletePolicy : String → Except String Unit

/-- Normalization of ExtraPrincipalArns performed by get_params: falsy
(absent, empty string, empty list) becomes the empty list, a scalar is
wrapped, and empties are stripped. -/
def normalize_extra_principals (raw : Option PValue) : List String :=
  let extra_principals : List String :=
    match raw with
    | none => []
    | some v => if v.isFalsy then [] else v.asList
  extra_principals.filter (fun extra => extra != "")

/-- Python str.lower modelled characterwise (ASCII case folding, which
is all the comparison against the ASCII literal true can observe). -/
def str_lower (s : String) : String := String.mk (s.data.map Char.toLower)

/-- Parsing of RequireEncryption performed by get_params: default the
absent value to the string false, lowercase, compare to the string
true. -/
def parse_require_encryption (raw : Option String) : Bool :=
  let require_encryption := raw.getD "false"
  str_lower require_encryption == "true"

/-- Find the params specified for the custom resource.  Raises
missingParameter when BucketName is absent (the source tests
`bucket_name is None`). -/
def get_params (event : Event) : Except Err (String × List String × Bool) :=
  match event.resourceProperties.bucketName with
  | none => Except.error Err.missingParameter
  | some bucket_name =>
      Except.ok (bucket_name,
        normalize_extra_principals event.resourceProperties.extraPrincipalArns,
        parse_require_encryption event.resourceProperties.requireEncryption)

/-- Retrieve tags for an s3 bucket.  A ClientError from the store is
re-raised; an absent or empty TagSet raises noTagsFound. -/
def get_bucket_tags (store : BucketStore) (bucket : String) : Except Err (List Tag) :=
  match store.getTagging bucket with
  | Except.error msg => Except.error (Err.clientError msg)
  | Except.ok response =>
      match response with
      | none => Except.error Err.noTagsFound
      | some tags =>
          if tags.isEmpty then Except.error Err.noTagsFound else Except.ok tags

/-- The well-known provisioning principal tag key. -/
def principal_tag_name : String := "aws:servicecatalog:provisioningPrincipalArn"

/-- Find the value of the principal tag: scan the tag list in order and
return the value of the first tag whose key matches; raise a ValueError
(principalTagMissing) when none matches. -/
def get_principal_tag : List Tag → Except Err String
  | [] => Except.error Err.principalTagMissing
  | tag :: rest =>
      if tag.key = principal_tag_name then Except.ok tag.value
      else get_principal_tag rest

/-- Merge the owner principal with the extra principals: extras first in
order, owner appended last, no deduplication. -/
def combine_principals (principal : String) (extra_principals : Option (List String)) : List String :=
  let principals := [principal]
  match extra_principals with
  | none => principals
  | some extras => extras ++ principals

/-- Build the policy document.  Two Allow statements always; when
require_encrypted, two Deny statements are appended.  The source
serializes this dictionary with json.dumps before returning. -/
def create_policy_document (bucket_name : String) (principals : List String)
    (require_encrypted : Bool) : Policy :=
  let bucket_arn := "arn:aws:s3:::" ++ bucket_name
  let bucket_objects_arn := bucket_arn ++ "/*"
  let policy : Policy :=
    { version := "2012-10-17"
      statement := [
        { sid := "ReadAccess"
          effect := "Allow"
          principal := principals
          action := ActionField.list ["s3:ListBucket*", "s3:GetBucketLocation"]
          resource := bucket_arn
          condition := none },
        { sid := "WriteAccess"
          effect := "Allow"
          principal := principals
          action := ActionField.list ["s3:*Object*", "s3:*MultipartUpload*"]
          resource := bucket_objects_arn
          condition := none } ] }
  if require_encrypted then
    let additional_statements : List Statement := [
      { sid := "DenyIncorrectEncryptionHeader"
        effect := "Deny"
        principal := principals
        action := ActionField.single "s3:PutObject"
        resource := bucket_objects_arn
        condition := some { op := "StringNotEquals"
                            key := "s3:x-amz-server-side-encryption"
                            value := "AES256" } },
      { sid := "DenyUnEncryptedObjectUploads"
        effect := "Deny"
        principal := principals
        action := ActionField.single "s3:PutObject"
        resource := bucket_objects_arn
        condition := some { op := "Null"
                            key := "s3:x-amz-server-side-encryption"
                            value := "true" } } ]
    { policy with statement := policy.statement ++ additional_statements }
  else policy

/-- Add a policy to the bucket; a ClientError from the store is
re-raised. -/
def attach_policy (store : BucketStore) (bucket_name : String) (policy_document : Policy) :
    Except Err Unit :=
  match store.putPolicy bucket_name policy_document with
  | Except.error msg => Except.error (Err.clientError msg)
  | Except.ok _ => Except.ok ()

/-- Create or re-create the policy.  Shared body of the create and
update lifecycle handlers: validate params, fetch tags, resolve the
owner principal, merge principals, build and attach the policy, then
return the prior physical id on Update and a freshly generated id
otherwise. -/
def create (store : BucketStore) (event : Event) (ctx : Context) : Except Err String :=
  match get_params event with
  | Except.error e => Except.error e
  | Except.ok (bucket_name, extra_principals, require_encryption) =>
      match get_bucket_tags store bucket_name with
      | Except.error e => Except.error e
      | Except.ok tags =>
          match get_principal_tag tags with
          | Except.error e => Except.error e
          | Except.ok principal_arn =>
              let principals := combine_principals principal_arn (some extra_principals)
              let policy_document :=
                create_policy_document bucket_name principals require_encryption
              match attach_policy store bucket_name policy_document with
              | Except.error e => Except.error e
              | Except.ok _ =>
                  let physical_resource_id :=
                    "BucketPolicy_" ++ bucket_name ++ "_" ++ ctx.awsRequestId
                  if event.requestType = "Update" then
                    match event.physicalResourceId with
                    | some pid => Except.ok pid
                    | none => Except.error (Err.keyError "PhysicalResourceId")
                  else
                    Except.ok physical_resource_id

/-- Delete the policy: validate params, call deletePolicy on the store
with no error handling (any store error propagates), return the prior
physical id. -/
def delete (store : BucketStore) (event : Event) : Except Err String :=
  match get_params event with
  | Except.error e => Except.error e
  | Except.ok (bucket_name, _, _) =>
      match store.deletePolicy bucket_name with
      | Except.error msg => Except.error (Err.clientError msg)
      | Except.ok _ =>
          match event.physicalResourceId with
          | some pid => Except.ok pid
          | none => Except.error (Err.keyError "PhysicalResourceId")

/-- Concrete store for the C3 witness: one tag carrying the principal
key, attach always succeeds. -/
def c3_store : BucketStore :=
  { getTagging := fun _ =>
      Except.ok (some [{ key := principal_tag_name
                         value := "arn:aws:iam::111:role/Owner" }])
    putPolicy := fun _ _ => Except.ok ()
    deletePolicy := fun _ => Except.ok () }

/-- Concrete Create event for the C3 witness. -/
def c3_create_event : Event :=
  { requestType := "Create"
    physicalResourceId := none
    resourceProperties := { bucketName := some "mybucket"
                            extraPrincipalArns := none
                            requireEncryption := none } }

/-- Concrete context for the C3 witness. -/
def c3_ctx : Context := { awsRequestId := "req-123" }

/-- Concrete store for the C4 witness; every call fails loudly, so a
result independent of it shows no call was made. -/
def c4_store : BucketStore :=
  { getTagging := fun _ => Except.error "should not be called"
    putPolicy := fun _ _ => Except.error "should not be called"
    deletePolicy := fun _ => Except.error "should not be called" }

/-- Concrete event with BucketName absent, for the C4 witness. -/
def c4_absent_event : Event :=
  { requestType := "Create"
    physicalResourceId := none
    resourceProperties := { bucketName := none
                            extraPrincipalArns := none
                            requireEncryption := none } }

/-- Concrete context for the C4 witness. -/
def c4_ctx : Context := { awsRequestId := "req-456" }

/-- Concrete event with an empty-string BucketName, for the C4
counterexample. -/
def c4_empty_event : Event :=
  { requestType := "Create"
    physicalResourceId := none
    resourceProperties := { bucketName := some ""
                            extraPrincipalArns := none
                            requireEncryption := none } }

/-- Concrete store for C5 whose deletePolicy reports that no policy is
present on the bucket, as a ClientError. -/
def c5_store : BucketStore :=
  { getTagging := fun _ => Except.ok none
    putPolicy := fun _ _ => Except.ok ()
    deletePolicy := fun _ =>
      Except.error "NoSuchBucketPolicy: The bucket policy does not exist" }

/-- Concrete Delete event for C5, carrying a prior physical id. -/
def c5_delete_event : Event :=
  { requestType := "Delete"
    physicalResourceId := some "BucketPolicy_mybucket_prior"
    resourceProperties := { bucketName := some "mybucket"
                            extraPrincipalArns := none
                            requireEncryption := none } }

/-- Helper: string append is associative. -/
theorem string_append_assoc (a b c : String) : (a ++ b) ++ c = a ++ (b ++ c) := by
  cases a with
  | mk la =>
      cases b with
      | mk lb =>
          cases c with
          | mk lc =>
              show String.mk ((la ++ lb) ++ lc) = String.mk (la ++ (lb ++ lc))
              rw [List.append_assoc]

/-- Helper: a successful get_params pins the bucket name to the
BucketName resource property. -/
theorem get_params_bucket_name (event : Event) (bn : String) (ep : List String) (re : Bool)
    (h : get_params event = Except.ok (bn, ep, re)) :
    event.resourceProperties.bucketName = some bn := by
  unfold get_params at h
  split at h
  · exact Except.noConfusion h
  · next bucket_name heq =>
      injection h with h
      injection h with h1 h2
      rw [heq, h1]

/-- C1: for every bucket name and principal list, with requireEncryption
false the document has exactly two statements, ReadAccess then
WriteAccess, the first on the bucket ARN and the second on the bucket
ARN followed by a wildcard object path. -/
theorem create_policy_document_without_encryption (b : String) (ps : List String) :
    ((create_policy_document b ps false).statement).length = 2 ∧
    ((create_policy_document b ps false).statement).map Statement.sid =
      ["ReadAccess", "WriteAccess"] ∧
    ((create_policy_document b ps false).statement).map Statement.resource =
      ["arn:aws:s3:::" ++ b, ("arn:aws:s3:::" ++ b) ++ "/*"] :=
  ⟨rfl, rfl, rfl⟩

/-- C2: with requireEncryption true the document has exactly four
statements in fixed order; the two appended statements are Deny
statements on the object resource, conditioned respectively on the
server-side-encryption header differing from AES256 and on the header
being absent (the Null operator). -/
theorem create_policy_document_with_encryption (b : String) (ps : List String) :
    ((create_policy_document b ps true).statement).length = 4 ∧
    ((create_policy_document b ps true).statement).map Statement.sid =
      ["ReadAccess", "WriteAccess",
       "DenyIncorrectEncryptionHeader", "DenyUnEncryptedObjectUploads"] ∧
    ((create_policy_document b ps true).statement).take 2 =
      (create_policy_document b ps false).statement ∧
    (((create_policy_document b ps true).statement).drop 2).map
        (fun s => (s.effect, s.resource, s.condition)) =
      [("Deny", ("arn:aws:s3:::" ++ b) ++ "/*",
        some { op := "StringNotEquals"
               key := "s3:x-amz-server-side-encryption"
               value := "AES256" }),
       ("Deny", ("arn:aws:s3:::" ++ b) ++ "/*",
        some { op := "Null"
               key := "s3:x-amz-server-side-encryption"
               value := "true" })] :=
  ⟨rfl, rfl, rfl, rfl⟩

/-- C3: whenever the create or update handler succeeds, an Update event
gets back its prior physical id unchanged, and any other event gets the
freshly generated id BucketPolicy_ bucket _ request-id, which contains
the bucket name. -/
theorem create_physical_resource_id
    (store : BucketStore) (event : Event) (ctx : Context) (r : String)
    (h : create store event ctx = Except.ok r) :
    (∀ x, event.requestType = "Update" → event.physicalResourceId = some x → r = x) ∧
    (event.requestType ≠ "Update" →
      ∀ b, event.resourceProperties.bucketName = some b →
        r = "BucketPolicy_" ++ b ++ "_" ++ ctx.awsRequestId ∧
        ∃ pre post, r = pre ++ b ++ post) := by
  unfold create at h
  cases hp : get_params event with
  | error e => rw [hp] at h; exact Except.noConfusion h
  | ok t =>
      obtain ⟨bn, ep, re⟩ := t
      rw [hp] at h
      dsimp only at h
      cases htags : get_bucket_tags store bn with
      | error e => rw [htags] at h; exact Except.noConfusion h
      | ok tags =>
          rw [htags] at h
          dsimp only at h
          cases hpt : get_principal_tag tags with
          | error e => rw [hpt] at h; exact Except.noConfusion h
          | ok principal_arn =>
              rw [hpt] at h
              dsimp only at h
              cases ha : attach_policy store bn
                  (create_policy_document bn
                    (combine_principals principal_arn (some ep)) re) with
              | error e => rw [ha] at h; exact Except.noConfusion h
              | ok u =>
                  rw [ha] at h
                  dsimp only at h
                  by_cases hupd : event.requestType = "Update"
                  · rw [if_pos hupd] at h
                    cases hpid : event.physicalResourceId with
                    | none => rw [hpid] at h; exact Except.noConfusion h
                    | some pid =>
                        rw [hpid] at h
                        injection h with h
                        subst h
                        constructor
                        · intro x _ hx
                          exact Option.some_injective _ hx
                        · intro hne
                          exact absurd hupd hne
                  · rw [if_neg hupd] at h
                    injection h with h
                    subst h
                    constructor
                    · intro x hx
                      exact absurd hx hupd
                    · intro _ b hb
                      have hbn := get_params_bucket_name event bn ep re hp
                      rw [hb] at hbn
                      have hbb : bn = b := Option.some_injective _ hbn.symm
                      subst hbb
                      exact ⟨rfl, "BucketPolicy_", "_" ++ ctx.awsRequestId,
                        string_append_assoc ("BucketPolicy_" ++ bn) "_"
                          ctx.awsRequestId⟩

/-- C3 witness: on a concrete Create event the handler succeeds and the
returned id is BucketPolicy_mybucket_req-123. -/
theorem create_physical_resource_id_witness :
    create c3_store c3_create_event c3_ctx = Except.ok "BucketPolicy_mybucket_req-123" ∧
    "BucketPolicy_mybucket_req-123" =
      "BucketPolicy_" ++ "mybucket" ++ "_" ++ "req-123" :=
  ⟨by rfl,
   ((create_physical_resource_id c3_store c3_create_event c3_ctx
      "BucketPolicy_mybucket_req-123" (by rfl)).2 (by decide) "mybucket" rfl).1⟩

/-- C4 counterexample: an event whose BucketName is the empty string
passes validation (get_params succeeds), because the source only tests
for None; so validation does not fail on an empty bucket name. -/
theorem empty_bucket_name_passes_validation :
    get_params c4_empty_event = Except.ok ("", [], false) := by rfl

/-- C4 amended: when BucketName is absent, validation fails with
missingParameter, and both lifecycle operations fail with that same
error for every possible Bucket Store, hence before any store call can
influence the outcome. -/
theorem missing_bucket_name_aborts (store : BucketStore) (event : Event) (ctx : Context)
    (h : event.resourceProperties.bucketName = none) :
    get_params event = Except.error Err.missingParameter ∧
    create store event ctx = Except.error Err.missingParameter ∧
    delete store event = Except.error Err.missingParameter := by
  have hgp : get_params event = Except.error Err.missingParameter := by
    unfold get_params
    rw [h]
  refine ⟨hgp, ?_, ?_⟩
  · unfold create
    rw [hgp]
  · unfold delete
    rw [hgp]

/-- C4 witness: the amended theorem applied to a concrete absent-name
event and a store that fails loudly on every call. -/
theorem missing_bucket_name_aborts_witness :
    c4_absent_event.resourceProperties.bucketName = none ∧
    create c4_store c4_absent_event c4_ctx = Except.error Err.missingParameter :=
  ⟨rfl, (missing_bucket_name_aborts c4_store c4_absent_event c4_ctx rfl).2.1⟩

/-- C5: on a Delete event against a store that reports the policy as
already absent, the delete handler propagates the store error instead of
succeeding with the prior physical id — the source wraps the
deletePolicy call in no error handling. -/
theorem delete_on_absent_policy_fails :
    delete c5_store c5_delete_event =
      Except.error (Err.clientError "NoSuchBucketPolicy: The bucket policy does not exist") := by
  rfl

/-- C6: combine_principals with a list of extras returns extras followed
by the owner as last element, with no deduplication, so the length is
always one more than the number of extras. -/
theorem combine_principals_spec (owner : String) (extras : List String) :
    combine_principals owner (some extras) = extras ++ [owner] ∧
    (combine_principals owner (some extras)).length = extras.length + 1 := by
  constructor
  · rfl
  · simp [combine_principals]

/-- C7: tag resolution fails with noTagsFound when the store returns an
absent or empty tag set, with the distinct error principalTagMissing
when no tag carries the well-known key, and returns the value of the
first matching tag otherwise. -/
theorem principal_resolution_spec :
    Err.noTagsFound ≠ Err.principalTagMissing ∧
    (∀ (store : BucketStore) (b : String), store.getTagging b = Except.ok none →
        get_bucket_tags store b = Except.error Err.noTagsFound) ∧
    (∀ (store : BucketStore) (b : String), store.getTagging b = Except.ok (some []) →
        get_bucket_tags store b = Except.error Err.noTagsFound) ∧
    (∀ tags : List Tag, (∀ t ∈ tags, t.key ≠ principal_tag_name) →
        get_principal_tag tags = Except.error Err.principalTagMissing) ∧
    (∀ (pre post : List Tag) (t : Tag), (∀ u ∈ pre, u.key ≠ principal_tag_name) →
        t.key = principal_tag_name →
        get_principal_tag (pre ++ t :: post) = Except.ok t.value) := by
  refine ⟨by decide, ?_, ?_, ?_, ?_⟩
  · intro store b h
    unfold get_bucket_tags
    rw [h]
  · intro store b h
    unfold get_bucket_tags
    rw [h]
    rfl
  · intro tags h
    induction tags with
    | nil => rfl
    | cons tag rest ih =>
        show (if tag.key = principal_tag_name then Except.ok tag.value
              else get_principal_tag rest) = Except.error Err.principalTagMissing
        rw [if_neg (h tag (List.mem_cons_self tag rest))]
        exact ih fun t ht => h t (List.mem_cons_of_mem tag ht)
  · intro pre post t hpre ht
    induction pre with
    | nil =>
        show (if t.key = principal_tag_name then Except.ok t.value
              else get_principal_tag post) = Except.ok t.value
        rw [if_pos ht]
    | cons u rest ih =>
        show (if u.key = principal_tag_name then Except.ok u.value
              else get_principal_tag (rest ++ t :: post)) = Except.ok t.value
        rw [if_neg (hpre u (List.mem_cons_self u rest))]
        exact ih fun v hv => hpre v (List.mem_cons_of_mem u hv)

/-- C7 witness: with one non-matching tag before the matching one, the
value of the first matching tag is returned. -/
theorem principal_resolution_spec_witness :
    get_principal_tag
      [{ key := "Department", value := "eng" },
       { key := "aws:servicecatalog:provisioningPrincipalArn",
         value := "arn:aws:iam::111:role/Owner" }] =
      Except.ok "arn:aws:iam::111:role/Owner" :=
  principal_resolution_spec.2.2.2.2
    [{ key := "Department", value := "eng" }] []
    { key := "aws:servicecatalog:provisioningPrincipalArn",
      value := "arn:aws:iam::111:role/Owner" }
    (by decide) (by decide)

/-- C8: the RequireEncryption parse yields true exactly when the raw
value is present and equals the string true case-insensitively; an
absent value yields false. -/
theorem parse_require_encryption_spec (raw : Option String) :
    (parse_require_encryption raw = true ↔
      ∃ s, raw = some s ∧ str_lower s = "true") ∧
    parse_require_encryption none = false := by
  constructor
  · cases raw with
    | none =>
        constructor
        · intro h
          exact absurd h (by decide)
        · rintro ⟨s, hs, _⟩
          exact Option.noConfusion hs
    | some s =>
        simp only [parse_require_encryption, Option.getD, beq_iff_eq]
        constructor
        · intro h
          exact ⟨s, rfl, h⟩
        · rintro ⟨u, hu, hlow⟩
          rw [Option.some_injective _ hu]
          exact hlow
  · decide

/-- C8 witness: the raw value TRUE (uppercase) parses to true. -/
theorem parse_require_encryption_spec_witness :
    parse_require_encryption (some "TRUE") = true :=
  (parse_require_encryption_spec (some "TRUE")).1.mpr ⟨"TRUE", rfl, by rfl⟩

/-- C9: ExtraPrincipalArns normalization: absent, empty-string and
empty-list values give the empty list; a non-empty scalar gives a
one-element list; a list is filtered to drop empty entries, preserving
the order of the rest. -/
theorem normalize_extra_principals_spec :
    normalize_extra_principals none = [] ∧
    normalize_extra_principals (some (PValue.str "")) = [] ∧
    normalize_extra_principals (some (PValue.list [])) = [] ∧
    (∀ s : String, s ≠ "" →
        normalize_extra_principals (some (PValue.str s)) = [s]) ∧
    (∀ l : List String,
        normalize_extra_principals (some (PValue.list l)) =
          l.filter (fun e => e != "")) := by
  refine ⟨rfl, by decide, rfl, ?_, ?_⟩
  · intro s hs
    simp [normalize_extra_principals, PValue.isFalsy, PValue.asList, hs]
  · intro l
    cases l with
    | nil => rfl
    | cons a rest =>
        simp [normalize_extra_principals, PValue.isFalsy, PValue.asList]

/-- C9 witness: a non-empty scalar ARN is wrapped into a one-element
list. -/
theorem normalize_extra_principals_spec_witness :
    ("arn:aws:iam::222:role/Extra" ≠ "") ∧
    normalize_extra_principals (some (PValue.str "arn:aws:iam::222:role/Extra")) =
      ["arn:aws:iam::222:role/Extra"] :=
  ⟨by decide,
   normalize_extra_principals_spec.2.2.2.1 "arn:aws:iam::222:role/Extra" (by decide)⟩

/-- C10: with requireEncryption true, the Action field of each Allow
statement is a list of strings while the Action field of each Deny
statement is the single string s3:PutObject, so the two statement shapes
differ in the type of the field. -/
theorem deny_statements_single_string_action (b : String) (ps : List String) :
    ((create_policy_document b ps true).statement).map
        (fun s => (s.effect, s.action)) =
      [("Allow", ActionField.list ["s3:ListBucket*", "s3:GetBucketLocation"]),
       ("Allow", ActionField.list ["s3:*Object*", "s3:*MultipartUpload*"]),
       ("Deny", ActionField.single "s3:PutObject"),
       ("Deny", ActionField.single "s3:PutObject")] := by
  rfl

end PolicyMaker
